import Mathlib

/-!
Verification of the mexca data model and merge engine (`mexca/data.py`).

The Python source is shallowly embedded: Python floats are modelled as `ℚ`
(the claims under study do not hinge on binary rounding; concrete inputs are
chosen so that float and exact arithmetic agree), Python ints as `ℤ`,
JSON values and pandas cells as the inductive `Val`, a pandas `DataFrame`
indexed by `(frame, time)` as `DF`, and code that can raise as
`Except String` / `Option`.
-/

/-- A JSON value / pandas cell.  `int` and `rat` mirror Python's distinct
`int` and `float`; `na` stands for `None` / `<NA>` / missing cells. -/
inductive Val where
  | int : ℤ → Val
  | rat : ℚ → Val
  | str : String → Val
  | na  : Val
  | arr : List Val → Val
  | obj : List (String × Val) → Val

/-- `numpy.arange(start, stop, step)` over exact rationals: `n = ⌈(stop - start)/step⌉`
values `start + i * step` (empty when the count is non-positive). -/
def arangeQ (start stop step : ℚ) : List ℚ :=
  (List.range (Int.toNat ⌈(stop - start) / step⌉)).map
    (fun i : ℕ => start + (i : ℚ) * step)

/-- Truncation toward zero, the semantics of casting a (non-overflowing)
float to `numpy.int32`.  Overflow is not modelled; all inputs in this
development are far below `2^31`. -/
def truncToInt (q : ℚ) : ℤ := Int.tdiv q.num (q.den : ℤ)

/-- The `time` axis of `Multimodal._merge_audio_text_features`:
`np.arange(0.0, duration, 1/fps_adjusted, dtype=np.float32)`. -/
def timeAxisQ (duration fpsAdjusted : ℚ) : List ℚ :=
  arangeQ 0 duration (1 / fpsAdjusted)

/-- The `frame` axis of `Multimodal._merge_audio_text_features`:
`np.arange(0, duration*fps, fps_adjusted, dtype=np.int32)`.  Note the step is
`fps_adjusted` in the source, not `fps / fps_adjusted`. -/
def frameAxisQ (duration fps fpsAdjusted : ℚ) : List ℤ :=
  (arangeQ 0 (duration * fps) fpsAdjusted).map truncToInt

/-- `mexca.data.SegmentData`. -/
structure SegmentData where
  filename : String
  channel : ℤ
  name : Option String
  conf : Option ℚ
deriving DecidableEq

/-- An `intervaltree.Interval` holding a `SegmentData`, as stored in a
`SpeakerAnnot`. -/
structure SegInterval where
  begin : ℚ
  end_ : ℚ
  data : SegmentData
deriving DecidableEq

/-- A `SpeakerAnnot` is an interval tree of segments; it is modelled as
the list of its intervals in iteration order. -/
def SpeakerAnnot := List SegInterval

/-- Interval-tree point query `tree[t]`: all intervals with `begin ≤ t < end`. -/
def pointQuerySeg (ann : SpeakerAnnot) (t : ℚ) : List SegInterval :=
  ann.filter (fun s => decide (s.begin ≤ t ∧ t < s.end_))

/-- A transcript span as the merge and sentiment code consume it
(`srt.Subtitle` interface: `start`/`end` in seconds, `index`, `content`). -/
structure Subtitle where
  start : ℚ
  end_ : ℚ
  index : ℤ
  content : String
deriving DecidableEq

/-- `mexca.data.AudioTranscription`: a filename plus the interval-stored
subtitles, modelled as a list in iteration order. -/
structure AudioTranscription where
  filename : String
  subtitles : List Subtitle

/-- Interval-tree point query `subtitles[t]`. -/
def pointQuerySub (subs : List Subtitle) (t : ℚ) : List Subtitle :=
  subs.filter (fun s => decide (s.start ≤ t ∧ t < s.end_))

/-- `mexca.data.Sentiment`. -/
structure Sentiment where
  index : ℤ
  pos : ℚ
  neg : ℚ
  neu : ℚ
deriving DecidableEq

/-- `mexca.data.SentimentAnnot`. -/
structure SentimentAnnot where
  sentiment : List Sentiment
deriving DecidableEq

/-- `mexca.data.VideoAnnot`.  `frame` and `time` carry the types the
merge key requires; the six feature columns hold arbitrary JSON values, as
the Python dataclass does not constrain them. -/
structure VideoAnnot where
  frame : List ℤ
  time : List ℚ
  face_box : List Val
  face_prob : List Val
  face_landmarks : List Val
  face_aus : List Val
  face_label : List Val
  face_confidence : List Val

/-- `mexca.data.VoiceFeatures`. -/
structure VoiceFeatures where
  frame : List ℤ
  time : List ℚ
  pitch_f0 : List Val

/-- A pandas data frame produced by the merge: value columns `cols` and rows
keyed by the `(frame, time)` index, each row carrying one cell per column. -/
structure DF where
  cols : List String
  rows : List ((ℤ × ℚ) × List Val)

/-- `pandas.merge(l, r, on=["frame", "time"], how="left")`: every left row is
kept; it is replicated for each right row with the same key, and padded with
missing cells when the right side has no match. -/
def leftJoin (l r : DF) : DF where
  cols := l.cols ++ r.cols
  rows := (l.rows.map (fun row =>
    match r.rows.filter (fun s => decide (s.1 = row.1)) with
    | [] => [(row.1, row.2 ++ List.replicate r.cols.length Val.na)]
    | ms => ms.map (fun s => (row.1, row.2 ++ s.2)))).flatten

/-- `pandas.DataFrame(dict).set_index(["frame", "time"])` for a dict of
columns: fails (raises `ValueError`) unless all arrays have equal length. -/
def dictToDF (frames : List ℤ) (times : List ℚ) (cols : List (String × List Val)) :
    Option DF :=
  let n := frames.length
  if times.length = n ∧ cols.all (fun c => c.2.length = n) then
    some ⟨cols.map (fun c => c.1),
      (List.range n).map (fun i =>
        ((frames.getD i 0, times.getD i 0), cols.map (fun c => c.2.getD i Val.na)))⟩
  else none

/-- `mexca.data.Multimodal` (its data fields). -/
structure Multimodal where
  filename : String
  duration : Option ℚ
  fps : Option ℚ
  fps_adjusted : Option ℚ
  video_annot : Option VideoAnnot
  audio_annot : Option SpeakerAnnot
  voice_features : Option VoiceFeatures
  transcription : Option AudioTranscription
  sentiment : Option SentimentAnnot
  features : Option DF

/-- `Multimodal.__init__`: `fps_adjusted` defaults to `fps` when not given. -/
def Multimodal.init (filename : String) (duration fps fps_adjusted : Option ℚ)
    (video_annot : Option VideoAnnot)
    (audio_annot : Option SpeakerAnnot)
    (voice_features : Option VoiceFeatures)
    (transcription : Option AudioTranscription)
    (sentiment : Option SentimentAnnot)
    (features : Option DF) : Multimodal :=
  { filename, duration, fps,
    fps_adjusted := match fps_adjusted with | none => fps | some x => some x,
    video_annot, audio_annot, voice_features, transcription,
    sentiment, features }

/-- Python truthiness of `self.audio_annot`: an `IntervalTree` defines
`__len__`, so an empty annotation is falsy. -/
def truthyAudio (m : Multimodal) : Bool :=
  match m.audio_annot with
  | none => false
  | some ann => !ann.isEmpty

/-- Python truthiness of `self.transcription`: `AudioTranscription.__len__`
is the number of subtitles. -/
def truthyTranscription (m : Multimodal) : Bool :=
  match m.transcription with
  | none => false
  | some tr => !tr.subtitles.isEmpty

/-- `pandas.DataFrame(asdict(video_annot)).set_index(["frame", "time"])`. -/
def videoDF (v : VideoAnnot) : Option DF :=
  dictToDF v.frame v.time
    [("face_box", v.face_box), ("face_prob", v.face_prob),
     ("face_landmarks", v.face_landmarks), ("face_aus", v.face_aus),
     ("face_label", v.face_label), ("face_confidence", v.face_confidence)]

/-- `pandas.DataFrame(asdict(voice_features)).set_index(["frame", "time"])`. -/
def voiceDF (v : VoiceFeatures) : Option DF :=
  dictToDF v.frame v.time [("pitch_f0", v.pitch_f0)]

/-- Cell for an optional string column (pandas stores `None` as missing). -/
def optStrVal : Option String → Val
  | none => Val.na
  | some s => Val.str s

/-- The rows appended to `audio_annot_dict`: one per axis point `(i, t)`
and per segment returned by the tree query `audio_annot[t]`. -/
def audioRows (ann : SpeakerAnnot) (axis : List (ℤ × ℚ)) :
    List ((ℤ × ℚ) × List Val) :=
  (axis.map (fun p =>
    (pointQuerySeg ann p.2).map (fun s =>
      ((p.1, p.2), [Val.rat s.begin, Val.rat s.end_, optStrVal s.data.name])))).flatten

/-- `pandas.DataFrame(audio_annot_dict).set_index(["frame", "time"])`;
its five lists are always appended together, so it never fails. -/
def audioDF (ann : SpeakerAnnot) (axis : List (ℤ × ℚ)) : DF :=
  ⟨["segment_start", "segment_end", "segment_speaker_label"], audioRows ann axis⟩

/-- The `text_features_dict` built when a sentiment annotation is present:
eight parallel lists (dict of arrays). -/
structure TextDict where
  frame : List ℤ
  time : List ℚ
  span_start : List ℚ
  span_end : List ℚ
  span_text : List String
  span_sent_pos : List ℚ
  span_sent_neg : List ℚ
  span_sent_neu : List ℚ

def emptyTextDict : TextDict := ⟨[], [], [], [], [], [], [], []⟩

/-- The body of the with-sentiment loop for one `(span, sent)` pair: span
fields are always appended, sentiment scores only when
`span.index == sent.index`. -/
def textPairStep (i : ℤ) (t : ℚ) (d : TextDict) (p : Subtitle × Sentiment) :
    TextDict :=
  let d' : TextDict :=
    { d with
      frame := d.frame ++ [i], time := d.time ++ [t],
      span_start := d.span_start ++ [p.1.start],
      span_end := d.span_end ++ [p.1.end_],
      span_text := d.span_text ++ [p.1.content] }
  if p.1.index = p.2.index then
    { d' with
      span_sent_pos := d'.span_sent_pos ++ [p.2.pos],
      span_sent_neg := d'.span_sent_neg ++ [p.2.neg],
      span_sent_neu := d'.span_sent_neu ++ [p.2.neu] }
  else d'

/-- One iteration of the with-sentiment branch at axis point `(i, t)`:
`zip(transcription.subtitles[t], sentiment.sentiment)` pairs the spans
covering `t` with the full sentiment list by position. -/
def textStep (subs : List Subtitle) (sents : List Sentiment) (i : ℤ) (t : ℚ)
    (d : TextDict) : TextDict :=
  (List.zip (pointQuerySub subs t) sents).foldl (textPairStep i t) d

/-- The with-sentiment `text_features_dict` accumulated over the axis. -/
def textDictSent (subs : List Subtitle) (sents : List Sentiment)
    (axis : List (ℤ × ℚ)) : TextDict :=
  axis.foldl (fun d p => textStep subs sents p.1 p.2 d) emptyTextDict

/-- `pandas.DataFrame(text_features_dict).set_index(...)` for the
with-sentiment dict: fails when the index guard left the lists ragged. -/
def textDictToDF (d : TextDict) : Option DF :=
  dictToDF d.frame d.time
    [("span_start", d.span_start.map Val.rat),
     ("span_end", d.span_end.map Val.rat),
     ("span_text", d.span_text.map Val.str),
     ("span_sent_pos", d.span_sent_pos.map Val.rat),
     ("span_sent_neg", d.span_sent_neg.map Val.rat),
     ("span_sent_neu", d.span_sent_neu.map Val.rat)]

/-- The `text_features_dict` of the no-sentiment branch: five parallel lists. -/
structure TextDictNS where
  frame : List ℤ
  time : List ℚ
  span_start : List ℚ
  span_end : List ℚ
  span_text : List String

def emptyTextDictNS : TextDictNS := ⟨[], [], [], [], []⟩

/-- The body of the no-sentiment loop for one span: the direct containment
test `span.start <= t <= span.end` (inclusive on both ends). -/
def textSpanStepNS (i : ℤ) (t : ℚ) (d : TextDictNS) (span : Subtitle) :
    TextDictNS :=
  if span.start ≤ t ∧ t ≤ span.end_ then
    { d with
      frame := d.frame ++ [i], time := d.time ++ [t],
      span_start := d.span_start ++ [span.start],
      span_end := d.span_end ++ [span.end_],
      span_text := d.span_text ++ [span.content] }
  else d

/-- One iteration of the no-sentiment branch at axis point `(i, t)`: every
span of the full subtitle list (no tree query) is tested for containment. -/
def textStepNS (subs : List Subtitle) (i : ℤ) (t : ℚ) (d : TextDictNS) :
    TextDictNS :=
  subs.foldl (textSpanStepNS i t) d

/-- The no-sentiment `text_features_dict` accumulated over the axis. -/
def textDictNS (subs : List Subtitle) (axis : List (ℤ × ℚ)) : TextDictNS :=
  axis.foldl (fun d p => textStepNS subs p.1 p.2 d) emptyTextDictNS

/-- DataFrame of the no-sentiment text dict. -/
def textDictNSToDF (d : TextDictNS) : Option DF :=
  dictToDF d.frame d.time
    [("span_start", d.span_start.map Val.rat),
     ("span_end", d.span_end.map Val.rat),
     ("span_text", d.span_text.map Val.str)]

/-- The pandas error raised by a ragged dict of arrays. -/
def lengthError : String := "All arrays must be of the same length"

/-- `Multimodal._merge_video_annot`: the table this step appends, `none`
when the step appends nothing, `error` when pandas raises. -/
def videoTablePart (m : Multimodal) : Except String (Option DF) :=
  match m.video_annot with
  | none => Except.ok none
  | some v =>
    match videoDF v with
    | some df => Except.ok (some df)
    | none => Except.error lengthError

/-- `Multimodal._merge_audio_text_features` as the optional table it appends.
Nothing happens unless `audio_annot` is truthy; the axis needs
`duration`, `fps` and `fps_adjusted` (`np.arange` raises on `None`); the text
table, when the transcription is truthy, is left-joined onto the audio table. -/
def audioTextTablePart (m : Multimodal) : Except String (Option DF) :=
  if truthyAudio m then
    match m.audio_annot with
    | none => Except.error "unreachable"
    | some ann =>
      match m.duration, m.fps, m.fps_adjusted with
      | some duration, some fps, some fpsAdjusted =>
        let timeAx := timeAxisQ duration fpsAdjusted
        let frameAx := frameAxisQ duration fps fpsAdjusted
        let axis := List.zip frameAx timeAx
        let adf := audioDF ann axis
        if truthyTranscription m then
          match m.transcription with
          | none => Except.error "unreachable"
          | some tr =>
            match m.sentiment with
            | some sa =>
              match textDictToDF (textDictSent tr.subtitles sa.sentiment axis) with
              | some tdf => Except.ok (some (leftJoin adf tdf))
              | none => Except.error lengthError
            | none =>
              match textDictNSToDF (textDictNS tr.subtitles axis) with
              | some tdf => Except.ok (some (leftJoin adf tdf))
              | none => Except.error lengthError
        else Except.ok (some adf)
      | _, _, _ => Except.error "unsupported operand type for arange"
  else Except.ok none

/-- `Multimodal._merge_voice_features`. -/
def voiceTablePart (m : Multimodal) : Except String (Option DF) :=
  match m.voice_features with
  | none => Except.ok none
  | some v =>
    match voiceDF v with
    | some df => Except.ok (some df)
    | none => Except.error lengthError

/-- The `dfs` list built by `Multimodal.merge_features` before the reduce. -/
def modalityTables (m : Multimodal) : Except String (List DF) := do
  let ov ← videoTablePart m
  let oa ← audioTextTablePart m
  let ovo ← voiceTablePart m
  pure (ov.toList ++ oa.toList ++ ovo.toList)

/-- `functools.reduce(pandas.merge(..., how="left"), dfs)` on a non-empty
list; the empty case never reaches the reduce. -/
def joinAll : List DF → DF
  | [] => ⟨[], []⟩
  | d :: rest => rest.foldl leftJoin d

/-- `Multimodal.merge_features`: builds the per-modality tables, left-joins
them when at least one exists and stores the result in `features`; with no
tables it leaves the object unchanged (and returns the old `features`). -/
def mergeFeatures (m : Multimodal) : Except String Multimodal := do
  let dfs ← modalityTables m
  match dfs with
  | [] => pure m
  | d :: rest => pure { m with features := some (rest.foldl leftJoin d) }

/-! ## Serialization layer -/

/-- Python `round(x, 2)` on seconds, applied by the RTTM writer to every
float cell.  (Exact binary-float tie behaviour is not modelled; no claim
depends on ties.) -/
def round2 (q : ℚ) : ℚ := (round (q * 100) : ℚ) / 100

/-- One line written by `SpeakerAnnot.__str__` (used by `write_rttm`):
the columns `"SPEAKER"`, filename, channel, `seg.begin`, `seg.end`, three
`<NA>` cells, speaker name, confidence — ten cells, floats rounded to two
decimals, `None` printed as `<NA>`. -/
def rttmRow (seg : SegInterval) : List Val :=
  [Val.str "SPEAKER", Val.str seg.data.filename, Val.int seg.data.channel,
   Val.rat (round2 seg.begin), Val.rat (round2 seg.end_),
   Val.na, Val.na, Val.na,
   optStrVal seg.data.name,
   (match seg.data.conf with | none => Val.na | some c => Val.rat (round2 c))]

/-- `SpeakerAnnot.write_rttm`: one line per stored segment. -/
def writeRTTM (ann : SpeakerAnnot) : List (List Val) := ann.map rttmRow

/-- `float(cell)`: succeeds on numeric cells. -/
def cellFloat : Option Val → Option ℚ
  | some (Val.rat q) => some q
  | some (Val.int z) => some (z : ℚ)
  | _ => none

/-- `int(cell)`. -/
def cellInt : Option Val → Option ℤ
  | some (Val.int z) => some z
  | _ => none

/-- A string cell. -/
def cellStr : Option Val → Option String
  | some (Val.str s) => some s
  | _ => none

/-- A cell that `from_rttm` maps to `None` when it is `<NA>`. -/
def cellOptStr : Option Val → Option (Option String)
  | some Val.na => some none
  | some (Val.str s) => some (some s)
  | _ => none

/-- One line parsed by `SpeakerAnnot.from_rttm`: `begin = row[3]`,
`end = row[3] + row[4]`, filename `row[1]`, channel `row[2]`, name `row[7]`;
confidence is never read back. -/
def parseRTTMRow (r : List Val) : Option SegInterval := do
  let fname ← cellStr r[1]?
  let chnl ← cellInt r[2]?
  let tbeg ← cellFloat r[3]?
  let tdur ← cellFloat r[4]?
  let name ← cellOptStr r[7]?
  pure ⟨tbeg, tbeg + tdur, ⟨fname, chnl, name, none⟩⟩

/-- `SpeakerAnnot.from_rttm` over the written lines. -/
def fromRTTM (rows : List (List Val)) : Option SpeakerAnnot :=
  rows.mapM parseRTTMRow

/-- Decode a JSON number that must be an int. -/
def decInt : Val → Option ℤ
  | Val.int z => some z
  | _ => none

/-- Decode a JSON number that must be a float. -/
def decRat : Val → Option ℚ
  | Val.rat q => some q
  | _ => none

/-- Decode each element of a list, failing when any element fails. -/
def decodeList {α : Type} (dec : Val → Option α) : List Val → Option (List α)
  | [] => some []
  | v :: vs => do
    let a ← dec v
    let rest ← decodeList dec vs
    pure (a :: rest)

/-- Decode a JSON array of ints. -/
def decIntList : Val → Option (List ℤ)
  | Val.arr vs => decodeList decInt vs
  | _ => none

/-- Decode a JSON array of floats. -/
def decRatList : Val → Option (List ℚ)
  | Val.arr vs => decodeList decRat vs
  | _ => none

/-- Decode a JSON array of arbitrary values. -/
def decValList : Val → Option (List Val)
  | Val.arr vs => some vs
  | _ => none

/-- An optional dataclass field: absent keys fall back to the default
(`_from_dict` filters to known keys, the dataclass supplies defaults). -/
def fieldD {α : Type} (d : List (String × Val)) (k : String)
    (dec : Val → Option α) (dflt : α) : Option α :=
  match List.lookup k d with
  | none => some dflt
  | some v => dec v

/-- A required dataclass field: loading fails when the key is absent. -/
def fieldR {α : Type} (d : List (String × Val)) (k : String)
    (dec : Val → Option α) : Option α :=
  match List.lookup k d with
  | none => none
  | some v => dec v

/-- `json.dump(asdict(video_annot))`: the JSON object as a key/value
list, in dataclass field order. -/
def encodeVideo (v : VideoAnnot) : List (String × Val) :=
  [("frame", Val.arr (v.frame.map Val.int)),
   ("time", Val.arr (v.time.map Val.rat)),
   ("face_box", Val.arr v.face_box),
   ("face_prob", Val.arr v.face_prob),
   ("face_landmarks", Val.arr v.face_landmarks),
   ("face_aus", Val.arr v.face_aus),
   ("face_label", Val.arr v.face_label),
   ("face_confidence", Val.arr v.face_confidence)]

/-- `VideoAnnot._from_dict`: unknown keys are dropped, every field is
optional with an empty-list default. -/
def decodeVideo (d : List (String × Val)) : Option VideoAnnot := do
  let frame ← fieldD d "frame" decIntList []
  let time ← fieldD d "time" decRatList []
  let face_box ← fieldD d "face_box" decValList []
  let face_prob ← fieldD d "face_prob" decValList []
  let face_landmarks ← fieldD d "face_landmarks" decValList []
  let face_aus ← fieldD d "face_aus" decValList []
  let face_label ← fieldD d "face_label" decValList []
  let face_confidence ← fieldD d "face_confidence" decValList []
  pure ⟨frame, time, face_box, face_prob, face_landmarks, face_aus,
        face_label, face_confidence⟩

def videoFieldNames : List String :=
  ["frame", "time", "face_box", "face_prob", "face_landmarks", "face_aus",
   "face_label", "face_confidence"]

/-- `json.dump(asdict(voice_features))`. -/
def encodeVoice (v : VoiceFeatures) : List (String × Val) :=
  [("frame", Val.arr (v.frame.map Val.int)),
   ("time", Val.arr (v.time.map Val.rat)),
   ("pitch_f0", Val.arr v.pitch_f0)]

/-- `VoiceFeatures._from_dict`: `frame` and `time` are required, `pitch_f0`
defaults to the empty list; unknown keys are dropped. -/
def decodeVoice (d : List (String × Val)) : Option VoiceFeatures := do
  let frame ← fieldR d "frame" decIntList
  let time ← fieldR d "time" decRatList
  let pitch_f0 ← fieldD d "pitch_f0" decValList []
  pure ⟨frame, time, pitch_f0⟩

def voiceFieldNames : List String := ["frame", "time", "pitch_f0"]

/-- One `Sentiment` record as a JSON object. -/
def encodeSentiment (s : Sentiment) : Val :=
  Val.obj [("index", Val.int s.index), ("pos", Val.rat s.pos),
           ("neg", Val.rat s.neg), ("neu", Val.rat s.neu)]

/-- `json.dump(asdict(sentiment_annotation))`. -/
def encodeSentimentAnn (sa : SentimentAnnot) : List (String × Val) :=
  [("sentiment", Val.arr (sa.sentiment.map encodeSentiment))]

/-- Reading one sentiment record (`Sentiment(index=s['index'], ...)`). -/
def decodeSentiment : Val → Option Sentiment
  | Val.obj kvs => do
    let i ← (List.lookup "index" kvs).bind decInt
    let p ← (List.lookup "pos" kvs).bind decRat
    let n ← (List.lookup "neg" kvs).bind decRat
    let u ← (List.lookup "neu" kvs).bind decRat
    pure ⟨i, p, n, u⟩
  | _ => none

/-- `SentimentAnnot.from_dict`: unknown keys are dropped; the
`sentiment` key is required and must hold a list of records. -/
def decodeSentimentAnn (d : List (String × Val)) : Option SentimentAnnot :=
  match List.lookup "sentiment" d with
  | some (Val.arr vs) => (decodeList decodeSentiment vs).map SentimentAnnot.mk
  | _ => none

def sentimentFieldNames : List String := ["sentiment"]

/-! ## Named instances used by counterexamples and witnesses -/

/-- All arrays of a `VideoAnnot` share the length of `frame` (the shape
`pandas.DataFrame(asdict(...))` requires). -/
def videoLensOk (v : VideoAnnot) : Prop :=
  v.time.length = v.frame.length ∧
  v.face_box.length = v.frame.length ∧
  v.face_prob.length = v.frame.length ∧
  v.face_landmarks.length = v.frame.length ∧
  v.face_aus.length = v.frame.length ∧
  v.face_label.length = v.frame.length ∧
  v.face_confidence.length = v.frame.length

/-- A `Multimodal` with nothing at all in it. -/
def emptyMM : Multimodal :=
  ⟨"video.mp4", none, none, none, none, none, none, none, none, none⟩

/-- A `VideoAnnot` whose `frame` and `time` arrays have different
lengths (one frame index, two timestamps). -/
def cexVideoMismatch : VideoAnnot :=
  ⟨[0], [0, 1], [], [], [], [], [], []⟩

/-- A `Multimodal` holding only the mismatched video annotation. -/
def cexMismatchMM : Multimodal :=
  { emptyMM with video_annot := some cexVideoMismatch }

/-- The claim C3 scenario gone wrong: one segment, one transcript span with
index 1 covering the whole axis, and a sentiment list whose records have
indices 0 and 1. -/
def cexSentimentMM : Multimodal :=
  { emptyMM with
    duration := some 1, fps := some 1, fps_adjusted := some 1,
    audio_annot := some [⟨0, 10, ⟨"video.mp4", 1, some "0", none⟩⟩],
    transcription := some ⟨"video.srt", [⟨0, 10, 1, "hello"⟩]⟩,
    sentiment := some ⟨[⟨0, 1/2, 3/10, 1/5⟩, ⟨1, 7/10, 1/10, 1/5⟩]⟩ }

/-- A `Multimodal` holding a transcript span but no speaker annotation; the
span covers the whole (would-be) axis. -/
def cexNoAudioMM : Multimodal :=
  { emptyMM with
    duration := some 1, fps := some 1, fps_adjusted := some 1,
    transcription := some ⟨"video.srt", [⟨0, 2, 1, "x"⟩]⟩ }

/-- A tiny well-formed `VideoAnnot` with a single frame. -/
def witVideo : VideoAnnot :=
  ⟨[0], [0], [Val.na], [Val.na], [Val.na], [Val.na], [Val.na], [Val.na]⟩

/-- A tiny well-formed `VoiceFeatures` with a single frame. -/
def witVoice : VoiceFeatures := ⟨[0], [0], [Val.rat 5]⟩

/-- The single-frame video table of `witVideo`. -/
def witVideoDF : DF :=
  ⟨["face_box", "face_prob", "face_landmarks", "face_aus", "face_label",
    "face_confidence"],
   [((0, 0), [Val.na, Val.na, Val.na, Val.na, Val.na, Val.na])]⟩

/-- The single-frame voice table of `witVoice`. -/
def witVoiceDF : DF := ⟨["pitch_f0"], [((0, 0), [Val.rat 5])]⟩

/-- A `Multimodal` with video and voice present and audio/text absent. -/
def witVideoVoiceMM : Multimodal :=
  { emptyMM with
    video_annot := some witVideo, voice_features := some witVoice }

/-- A `Multimodal` whose `features` was already assigned. -/
def witFeaturesMM : Multimodal :=
  { emptyMM with features := some witVoiceDF }

/-- The transcript span of the claim C3 scenario. -/
def witSub : Subtitle := ⟨0, 10, 0, "hello"⟩

/-- The sentiment record of the claim C3 scenario. -/
def witSent : Sentiment := ⟨0, 7/10, 1/10, 1/5⟩

/-! ## Helper lemmas -/

/-- With no video, speaker and voice data, `merge_features` builds no table
and leaves the object untouched (the truthiness of `audio_annot` gates
the whole audio/text branch). -/
theorem mergeFeatures_of_all_absent (m : Multimodal)
    (hv : m.video_annot = none) (ha : m.audio_annot = none)
    (hvo : m.voice_features = none) :
    mergeFeatures m = Except.ok m := by
  simp [mergeFeatures, modalityTables, videoTablePart, audioTextTablePart,
        voiceTablePart, truthyAudio, hv, ha, hvo, Bind.bind, Except.bind,
        Pure.pure, Except.pure]

/-- The columns of a fold of left joins are the concatenation of all the
joined tables' columns. -/
theorem foldl_leftJoin_cols (rest : List DF) (d : DF) :
    (rest.foldl leftJoin d).cols = d.cols ++ (rest.map DF.cols).flatten := by
  induction rest generalizing d with
  | nil => simp
  | cons r rs ih => simp [List.foldl_cons, ih, leftJoin, List.append_assoc]

/-- Closed form of the with-sentiment loop over a list of zipped
`(span, sent)` pairs: span columns grow by one entry per pair, sentiment
columns only for pairs whose indices agree. -/
theorem textPairStep_foldl (i : ℤ) (t : ℚ) (ps : List (Subtitle × Sentiment))
    (d : TextDict) :
    ps.foldl (textPairStep i t) d =
      ⟨d.frame ++ List.replicate ps.length i,
       d.time ++ List.replicate ps.length t,
       d.span_start ++ ps.map (fun p => p.1.start),
       d.span_end ++ ps.map (fun p => p.1.end_),
       d.span_text ++ ps.map (fun p => p.1.content),
       d.span_sent_pos ++
         (ps.filter (fun p => decide (p.1.index = p.2.index))).map
           (fun p => p.2.pos),
       d.span_sent_neg ++
         (ps.filter (fun p => decide (p.1.index = p.2.index))).map
           (fun p => p.2.neg),
       d.span_sent_neu ++
         (ps.filter (fun p => decide (p.1.index = p.2.index))).map
           (fun p => p.2.neu)⟩ := by
  induction ps generalizing d with
  | nil => simp
  | cons p ps ih =>
    by_cases hidx : p.1.index = p.2.index
    · simp [List.foldl_cons, ih, textPairStep, hidx, List.filter_cons,
            List.replicate_succ]
    · simp [List.foldl_cons, ih, textPairStep, hidx, List.filter_cons,
            List.replicate_succ]

/-- A dict whose every column is a map over one list `ps` always passes the
length check and produces one row per element of `ps`. -/
theorem dictToDF_maps {α : Type} (ps : List α) (f : α → ℤ) (g : α → ℚ)
    (cs : List (String × (α → Val))) :
    dictToDF (ps.map f) (ps.map g) (cs.map (fun c => (c.1, ps.map c.2))) =
      some ⟨cs.map (fun c => c.1),
        ps.map (fun a => ((f a, g a), cs.map (fun c => c.2 a)))⟩ := by
  have hrows : (List.range (ps.map f).length).map
        (fun i => (((ps.map f).getD i 0, (ps.map g).getD i 0),
          (cs.map (fun c => (c.1, ps.map c.2))).map (fun c => c.2.getD i Val.na))) =
      ps.map (fun a => ((f a, g a), cs.map (fun c => c.2 a))) := by
    apply List.ext_getElem
    · simp
    intro k h1 h2
    have hk : k < ps.length := by simpa using h1
    simp [List.getElem_map, List.getElem_range, List.getD_eq_getD_get?,
          List.get?_eq_getElem?, List.getElem?_map, List.map_map,
          Function.comp, List.getElem?_eq_getElem, hk]
  unfold dictToDF
  rw [if_pos]
  · rw [hrows]
    simp [List.map_map, Function.comp]
  · refine ⟨by simp, ?_⟩
    simp only [List.all_eq_true, decide_eq_true_eq, List.length_map]
    intro c hc
    obtain ⟨c0, hc0, rfl⟩ := List.mem_map.mp hc
    simp

/-- Closed form of the no-sentiment loop: exactly the spans passing the
inclusive containment test contribute, in source order. -/
theorem textSpanStepNS_foldl (i : ℤ) (t : ℚ) (subs : List Subtitle)
    (d : TextDictNS) :
    subs.foldl (textSpanStepNS i t) d =
      ⟨d.frame ++ List.replicate
          (subs.filter (fun s => decide (s.start ≤ t ∧ t ≤ s.end_))).length i,
       d.time ++ List.replicate
          (subs.filter (fun s => decide (s.start ≤ t ∧ t ≤ s.end_))).length t,
       d.span_start ++
         (subs.filter (fun s => decide (s.start ≤ t ∧ t ≤ s.end_))).map
           (fun s => s.start),
       d.span_end ++
         (subs.filter (fun s => decide (s.start ≤ t ∧ t ≤ s.end_))).map
           (fun s => s.end_),
       d.span_text ++
         (subs.filter (fun s => decide (s.start ≤ t ∧ t ≤ s.end_))).map
           (fun s => s.content)⟩ := by
  induction subs generalizing d with
  | nil => simp
  | cons s ss ih =>
    by_cases hc : s.start ≤ t ∧ t ≤ s.end_
    · simp [List.foldl_cons, ih, textSpanStepNS, hc, List.filter_cons,
            List.replicate_succ]
    · simp [List.foldl_cons, ih, textSpanStepNS, hc, List.filter_cons,
            List.replicate_succ]

/-- Decoding an encoded int array recovers it. -/
theorem decodeList_decInt (l : List ℤ) :
    decodeList decInt (l.map Val.int) = some l := by
  induction l with
  | nil => rfl
  | cons x xs ih => simp [decodeList, decInt, ih]

/-- Decoding an encoded float array recovers it. -/
theorem decodeList_decRat (l : List ℚ) :
    decodeList decRat (l.map Val.rat) = some l := by
  induction l with
  | nil => rfl
  | cons x xs ih => simp [decodeList, decRat, ih]

/-- Decoding an encoded sentiment record recovers it. -/
theorem decodeSentiment_encode (s : Sentiment) :
    decodeSentiment (encodeSentiment s) = some s := rfl

/-- Decoding an encoded list of sentiment records recovers it. -/
theorem decodeList_decodeSentiment (l : List Sentiment) :
    decodeList decodeSentiment (l.map encodeSentiment) = some l := by
  induction l with
  | nil => rfl
  | cons x xs ih => simp [decodeList, decodeSentiment_encode, ih]

/-- A video annotation written to JSON decodes back, whatever further keys
follow the eight known ones. -/
theorem decodeVideo_append (v : VideoAnnot) (extra : List (String × Val)) :
    decodeVideo (encodeVideo v ++ extra) = some v := by
  have h1 : List.lookup "frame" (encodeVideo v ++ extra) =
      some (Val.arr (v.frame.map Val.int)) := rfl
  have h2 : List.lookup "time" (encodeVideo v ++ extra) =
      some (Val.arr (v.time.map Val.rat)) := rfl
  have h3 : List.lookup "face_box" (encodeVideo v ++ extra) =
      some (Val.arr v.face_box) := rfl
  have h4 : List.lookup "face_prob" (encodeVideo v ++ extra) =
      some (Val.arr v.face_prob) := rfl
  have h5 : List.lookup "face_landmarks" (encodeVideo v ++ extra) =
      some (Val.arr v.face_landmarks) := rfl
  have h6 : List.lookup "face_aus" (encodeVideo v ++ extra) =
      some (Val.arr v.face_aus) := rfl
  have h7 : List.lookup "face_label" (encodeVideo v ++ extra) =
      some (Val.arr v.face_label) := rfl
  have h8 : List.lookup "face_confidence" (encodeVideo v ++ extra) =
      some (Val.arr v.face_confidence) := rfl
  simp [decodeVideo, fieldD, h1, h2, h3, h4, h5, h6, h7, h8, decIntList,
        decRatList, decValList, decodeList_decInt, decodeList_decRat]

/-- Voice features written to JSON decode back, whatever further keys follow
the three known ones. -/
theorem decodeVoice_append (w : VoiceFeatures) (extra : List (String × Val)) :
    decodeVoice (encodeVoice w ++ extra) = some w := by
  have h1 : List.lookup "frame" (encodeVoice w ++ extra) =
      some (Val.arr (w.frame.map Val.int)) := rfl
  have h2 : List.lookup "time" (encodeVoice w ++ extra) =
      some (Val.arr (w.time.map Val.rat)) := rfl
  have h3 : List.lookup "pitch_f0" (encodeVoice w ++ extra) =
      some (Val.arr w.pitch_f0) := rfl
  simp [decodeVoice, fieldR, fieldD, h1, h2, h3, decIntList, decRatList,
        decValList, decodeList_decInt, decodeList_decRat]

/-- A sentiment annotation written to JSON decodes back, whatever further
keys follow the known one. -/
theorem decodeSentimentAnn_append (sa : SentimentAnnot)
    (extra : List (String × Val)) :
    decodeSentimentAnn (encodeSentimentAnn sa ++ extra) = some sa := by
  have h1 : List.lookup "sentiment" (encodeSentimentAnn sa ++ extra) =
      some (Val.arr (sa.sentiment.map encodeSentiment)) := rfl
  simp [decodeSentimentAnn, h1, decodeList_decodeSentiment]

/-! ## Claim theorems -/

/-- C1: the spec claims the frame axis is `i * (fps / fps_adjusted)` rounded,
i.e. the 50-point sequence `[0, 3, ..., 147]` for duration=5, fps=30,
fps_adjusted=10.  The code steps `np.arange` by `fps_adjusted` instead, which
at that input yields the 15-point sequence `[0, 10, ..., 140]` — evaluated
here at the failing input. -/
theorem frame_axis_step_is_fps_adjusted :
    frameAxisQ 5 30 10 =
      [0, 10, 20, 30, 40, 50, 60, 70, 80, 90, 100, 110, 120, 130, 140] ∧
    frameAxisQ 5 30 10 ≠
      [0, 3, 6, 9, 12, 15, 18, 21, 24, 27, 30, 33, 36, 39, 42, 45, 48, 51,
       54, 57, 60, 63, 66, 69, 72, 75, 78, 81, 84, 87, 90, 93, 96, 99, 102,
       105, 108, 111, 114, 117, 120, 123, 126, 129, 132, 135, 138, 141, 144,
       147] := by
  have hn : Int.toNat ⌈(((5 : ℚ) * 30 - 0) / 10)⌉ = 15 := by
    norm_num
    rfl
  have hlist : frameAxisQ 5 30 10 =
      [0, 10, 20, 30, 40, 50, 60, 70, 80, 90, 100, 110, 120, 130, 140] := by
    unfold frameAxisQ arangeQ
    rw [hn]
    rw [show List.range 15 = [0,1,2,3,4,5,6,7,8,9,10,11,12,13,14] from rfl]
    norm_num
    decide
  refine ⟨hlist, fun h => ?_⟩
  rw [hlist] at h
  exact absurd (congrArg List.length h) (by decide)

/-- C4: the spec claims the time and frame axes always have identical length.
At duration=5, fps=30, fps_adjusted=10 the code produces a 50-point time axis
but a 15-point frame axis (the `zip` in the merge then silently truncates to
15 points), so the lengths differ — evaluated here at the failing input. -/
theorem axis_lengths_differ :
    (timeAxisQ 5 10).length = 50 ∧ (frameAxisQ 5 30 10).length = 15 := by
  constructor
  · simp only [timeAxisQ, arangeQ, List.length_map, List.length_range]
    norm_num
    rfl
  · simp only [frameAxisQ, arangeQ, List.length_map, List.length_range]
    norm_num
    rfl

/-- C2: the spec claims the RTTM writer emits `duration = end - begin` and
that a write/read round trip reproduces `end` to within 0.01s and the
speaker label exactly.  The writer actually emits `begin, end` plus three
`<NA>` cells, so the reader reconstructs `end = begin + end` and reads the
third `<NA>` as the name: the segment `[1, 2)` with speaker "A" comes back
as `[1, 3)` with no speaker — evaluated here at the failing input. -/
theorem rttm_roundtrip_corrupts_end_and_name :
    fromRTTM (writeRTTM [⟨1, 2, ⟨"file", 1, some "A", none⟩⟩]) =
      some [⟨1, 3, ⟨"file", 1, none, none⟩⟩] := by
  have h1 : round2 (1 : ℚ) = 1 := by norm_num [round2, round_eq]
  have h2 : round2 (2 : ℚ) = 2 := by norm_num [round2, round_eq]
  simp [fromRTTM, writeRTTM, rttmRow, parseRTTMRow, cellStr, cellInt,
        cellFloat, cellOptStr, optStrVal, h1, h2, List.mapM, List.mapM.loop]
  norm_num

/-- C3 counterexample: the claim says the merged row for a span covering `t`
carries the scores of the sentiment record whose index equals the span's
index.  With one span of index 1 covering the single axis point and sentiment
records of indices 0 and 1, the positional `zip` pairs the span with record
0, the index guard fails, the text dict becomes ragged and the merge raises
instead of producing any row with record 1's scores. -/
theorem sentiment_index_mismatch_breaks_merge :
    mergeFeatures cexSentimentMM = Except.error lengthError := by
  have hf : frameAxisQ 1 1 1 = [0] := by
    unfold frameAxisQ arangeQ
    rw [show Int.toNat ⌈(((1 : ℚ) * 1 - 0) / 1)⌉ = 1 by norm_num]
    norm_num
    decide
  have ht : timeAxisQ 1 1 = [0] := by
    unfold timeAxisQ arangeQ
    rw [show Int.toNat ⌈(((1 : ℚ) - 0) / (1 / 1))⌉ = 1 by norm_num]
    norm_num
    decide
  have hq : pointQuerySub [⟨0, 10, 1, "hello"⟩] (0 : ℚ) = [⟨0, 10, 1, "hello"⟩] := by
    decide
  have htd : textDictToDF ⟨[0], [0], [0], [10], ["hello"], [], [], []⟩ = none := rfl
  simp [mergeFeatures, modalityTables, videoTablePart, audioTextTablePart,
        voiceTablePart, cexSentimentMM, emptyMM, truthyAudio,
        truthyTranscription, hf, ht, hq, htd, textDictSent, textStep,
        textPairStep, emptyTextDict, Bind.bind, Except.bind]

/-- C3 (amended): sentiment scores are spliced positionally — the k-th span
covering `t` is paired with the k-th record of the full sentiment list and,
when every such pair has matching indices, each pair yields exactly one row
carrying the span's text together with that record's three scores (the
scenario record/span of index 0 is the one-pair instance). -/
theorem sentiment_splice_positional (subs : List Subtitle)
    (sents : List Sentiment) (i : ℤ) (t : ℚ)
    (h : ∀ p ∈ List.zip (pointQuerySub subs t) sents, p.1.index = p.2.index) :
    textDictToDF (textStep subs sents i t emptyTextDict) =
      some ⟨["span_start", "span_end", "span_text",
             "span_sent_pos", "span_sent_neg", "span_sent_neu"],
        (List.zip (pointQuerySub subs t) sents).map (fun p =>
          ((i, t), [Val.rat p.1.start, Val.rat p.1.end_, Val.str p.1.content,
                    Val.rat p.2.pos, Val.rat p.2.neg, Val.rat p.2.neu]))⟩ := by
  set ps := List.zip (pointQuerySub subs t) sents with hps
  have hfilter : ps.filter (fun p => decide (p.1.index = p.2.index)) = ps :=
    List.filter_eq_self.mpr (fun p hp => decide_eq_true (h p hp))
  have hd := dictToDF_maps ps (fun _ => i) (fun _ => t)
    [("span_start", fun p => Val.rat p.1.start),
     ("span_end", fun p => Val.rat p.1.end_),
     ("span_text", fun p => Val.str p.1.content),
     ("span_sent_pos", fun p => Val.rat p.2.pos),
     ("span_sent_neg", fun p => Val.rat p.2.neg),
     ("span_sent_neu", fun p => Val.rat p.2.neu)]
  simp only [List.map_cons, List.map_nil] at hd
  unfold textStep
  rw [← hps, textPairStep_foldl, hfilter]
  unfold textDictToDF
  simp only [emptyTextDict, List.nil_append]
  have hrepi : List.replicate ps.length i = ps.map (fun _ => i) := by
    simp [List.map_const']
  have hrept : List.replicate ps.length t = ps.map (fun _ => t) := by
    simp [List.map_const']
  rw [hrepi, hrept]
  simpa [List.map_map, Function.comp] using hd

/-- C3 witness: the scenario span and sentiment record of index 0 yield one
row carrying the text and the three scores. -/
theorem sentiment_splice_positional_witness :
    textDictToDF (textStep [witSub] [witSent] 0 0 emptyTextDict) =
      some ⟨["span_start", "span_end", "span_text",
             "span_sent_pos", "span_sent_neg", "span_sent_neu"],
        [((0, 0), [Val.rat witSub.start, Val.rat witSub.end_,
                   Val.str witSub.content, Val.rat witSent.pos,
                   Val.rat witSent.neg, Val.rat witSent.neu])]⟩ := by
  have h := sentiment_splice_positional [witSub] [witSent] 0 0 (by decide)
  have hq : pointQuerySub [witSub] (0 : ℚ) = [witSub] := by decide
  rw [h, hq]
  simp

/-- C5 counterexample: the claim says that with a transcript span collection
but no segment collection, spans are still matched to axis points and
contribute rows.  `cexNoAudioMM` holds a span covering the whole axis yet no
speaker annotation; the merge leaves the object untouched, produces no table
and hence no span row at all. -/
theorem transcription_without_audio_ignored :
    mergeFeatures cexNoAudioMM = Except.ok cexNoAudioMM ∧
    cexNoAudioMM.features = none ∧
    cexNoAudioMM.transcription = some ⟨"video.srt", [⟨0, 2, 1, "x"⟩]⟩ :=
  ⟨mergeFeatures_of_all_absent cexNoAudioMM rfl rfl rfl, rfl, rfl⟩

/-- C5 (amended): the direct containment test `span.start ≤ t ≤ span.end`
over the full span list runs in the branch where a speaker annotation is
present and a sentiment annotation is absent, contributing one row per
containing span; without a speaker annotation the audio/text step yields no
table and the transcription is ignored. -/
theorem text_containment_requires_audio (subs : List Subtitle) (i : ℤ) (t : ℚ)
    (m : Multimodal) (hm : m.audio_annot = none) :
    textDictNSToDF (textStepNS subs i t emptyTextDictNS) =
      some ⟨["span_start", "span_end", "span_text"],
        (subs.filter (fun s => decide (s.start ≤ t ∧ t ≤ s.end_))).map
          (fun s => ((i, t), [Val.rat s.start, Val.rat s.end_,
                              Val.str s.content]))⟩ ∧
    audioTextTablePart m = Except.ok none := by
  constructor
  · set hits := subs.filter (fun s => decide (s.start ≤ t ∧ t ≤ s.end_)) with hh
    have hd := dictToDF_maps hits (fun _ => i) (fun _ => t)
      [("span_start", fun s => Val.rat s.start),
       ("span_end", fun s => Val.rat s.end_),
       ("span_text", fun s => Val.str s.content)]
    simp only [List.map_cons, List.map_nil] at hd
    unfold textStepNS
    rw [textSpanStepNS_foldl]
    unfold textDictNSToDF
    simp only [emptyTextDictNS, List.nil_append]
    have hrepi : List.replicate hits.length i = hits.map (fun _ => i) := by
      simp [List.map_const']
    have hrept : List.replicate hits.length t = hits.map (fun _ => t) := by
      simp [List.map_const']
    rw [← hh, hrepi, hrept]
    simpa [List.map_map, Function.comp] using hd
  · simp [audioTextTablePart, truthyAudio, hm]

/-- C5 witness: the containing span of `cexNoAudioMM` would contribute its
row in the with-audio no-sentiment branch, while the audio/text step of
`cexNoAudioMM` itself contributes nothing. -/
theorem text_containment_requires_audio_witness :
    textDictNSToDF (textStepNS [⟨0, 2, 1, "x"⟩] 0 0 emptyTextDictNS) =
      some ⟨["span_start", "span_end", "span_text"],
        [((0, 0), [Val.rat 0, Val.rat 2, Val.str "x"])]⟩ ∧
    audioTextTablePart cexNoAudioMM = Except.ok none := by
  have h := text_containment_requires_audio [⟨0, 2, 1, "x"⟩] 0 0 cexNoAudioMM rfl
  have hfil : ([⟨0, 2, 1, "x"⟩] : List Subtitle).filter
      (fun s => decide (s.start ≤ (0 : ℚ) ∧ (0 : ℚ) ≤ s.end_)) =
      [⟨0, 2, 1, "x"⟩] := by decide
  refine ⟨?_, h.2⟩
  rw [h.1, hfil]
  simp

/-- C6: a `Multimodal` with every modality container absent (and no
pre-assigned features) merges to a successful result whose `features` is
none — not an empty table and not an error. -/
theorem merge_no_modalities_returns_none (m : Multimodal)
    (h1 : m.video_annot = none) (h2 : m.audio_annot = none)
    (h3 : m.voice_features = none) (_h4 : m.transcription = none)
    (_h5 : m.sentiment = none) (h6 : m.features = none) :
    ∃ m', mergeFeatures m = Except.ok m' ∧ m'.features = none :=
  ⟨m, mergeFeatures_of_all_absent m h1 h2 h3, h6⟩

/-- C6 witness: the empty `Multimodal`. -/
theorem merge_no_modalities_returns_none_witness :
    ∃ m', mergeFeatures emptyMM = Except.ok m' ∧ m'.features = none :=
  merge_no_modalities_returns_none emptyMM rfl rfl rfl rfl rfl rfl

/-- C10: with every modality container absent, `merge_features` returns the
object unchanged, so a pre-assigned `features` value is preserved and
returned. -/
theorem merge_no_modalities_preserves_features (m : Multimodal)
    (h1 : m.video_annot = none) (h2 : m.audio_annot = none)
    (h3 : m.voice_features = none) (_h4 : m.transcription = none)
    (_h5 : m.sentiment = none) :
    mergeFeatures m = Except.ok m :=
  mergeFeatures_of_all_absent m h1 h2 h3

/-- C10 witness: a `Multimodal` whose `features` was already assigned. -/
theorem merge_no_modalities_preserves_features_witness :
    mergeFeatures witFeaturesMM = Except.ok witFeaturesMM :=
  merge_no_modalities_preserves_features witFeaturesMM rfl rfl rfl rfl rfl

/-- C7: writing a `VideoAnnot`, `VoiceFeatures` or
`SentimentAnnot` to JSON and loading it back reproduces the instance,
and loading tolerates arbitrary additional record keys that are not fields
of the container (they are filtered out silently). -/
theorem json_roundtrip_and_unknown_keys :
    (∀ v : VideoAnnot, decodeVideo (encodeVideo v) = some v) ∧
    (∀ w : VoiceFeatures, decodeVoice (encodeVoice w) = some w) ∧
    (∀ sa : SentimentAnnot,
      decodeSentimentAnn (encodeSentimentAnn sa) = some sa) ∧
    (∀ (v : VideoAnnot) (extra : List (String × Val)),
      (∀ p ∈ extra, p.1 ∉ videoFieldNames) →
      decodeVideo (encodeVideo v ++ extra) = some v) ∧
    (∀ (w : VoiceFeatures) (extra : List (String × Val)),
      (∀ p ∈ extra, p.1 ∉ voiceFieldNames) →
      decodeVoice (encodeVoice w ++ extra) = some w) ∧
    (∀ (sa : SentimentAnnot) (extra : List (String × Val)),
      (∀ p ∈ extra, p.1 ∉ sentimentFieldNames) →
      decodeSentimentAnn (encodeSentimentAnn sa ++ extra) = some sa) := by
  refine ⟨fun v => ?_, fun w => ?_, fun sa => ?_,
    fun v extra _ => decodeVideo_append v extra,
    fun w extra _ => decodeVoice_append w extra,
    fun sa extra _ => decodeSentimentAnn_append sa extra⟩
  · simpa using decodeVideo_append v []
  · simpa using decodeVoice_append w []
  · simpa using decodeSentimentAnn_append sa []

/-- C7 witness: concrete round trips, one with an unknown key appended. -/
theorem json_roundtrip_and_unknown_keys_witness :
    decodeVideo (encodeVideo witVideo ++ [("junk", Val.int 5)]) = some witVideo ∧
    decodeVoice (encodeVoice witVoice) = some witVoice ∧
    decodeSentimentAnn (encodeSentimentAnn ⟨[witSent]⟩) = some ⟨[witSent]⟩ := by
  refine ⟨json_roundtrip_and_unknown_keys.2.2.2.1 witVideo
      [("junk", Val.int 5)] ?_,
    json_roundtrip_and_unknown_keys.2.1 witVoice,
    json_roundtrip_and_unknown_keys.2.2.1 ⟨[witSent]⟩⟩
  decide

/-- C8 counterexample: the claim says mismatched array lengths fail fast at
container construction, before any merge.  `cexVideoMismatch` is a fully
constructed `VideoAnnot` whose `frame` and `time` arrays have lengths 1
and 2 — construction raised nothing — and the data-shape error only appears
when `merge_features` builds the video table. -/
theorem mismatched_video_constructs_then_merge_errors :
    cexVideoMismatch.frame.length = 1 ∧ cexVideoMismatch.time.length = 2 ∧
    mergeFeatures cexMismatchMM = Except.error lengthError :=
  ⟨rfl, rfl, rfl⟩

/-- C8 (amended): container construction performs no length validation;
mismatched array lengths inside a `VideoAnnot` raise the pandas
data-shape error when the merge builds the modality's table, so no merged
output (and no silent truncation) ever results. -/
theorem mismatched_video_errors_at_merge (m : Multimodal)
    (v : VideoAnnot) (hv : m.video_annot = some v)
    (hlen : ¬ videoLensOk v) :
    mergeFeatures m = Except.error lengthError := by
  have hdf : videoDF v = none := by
    unfold videoDF dictToDF
    rw [if_neg]
    intro hc
    apply hlen
    obtain ⟨h1, h2⟩ := hc
    simp only [List.all_cons, List.all_nil, Bool.and_true, Bool.and_eq_true,
      decide_eq_true_eq] at h2
    exact ⟨h1, h2.1, h2.2.1, h2.2.2.1, h2.2.2.2.1, h2.2.2.2.2.1,
           h2.2.2.2.2.2⟩
  simp [mergeFeatures, modalityTables, videoTablePart, hv, hdf,
        Bind.bind, Except.bind]

/-- C8 witness: the mismatched annotation makes the merge error out. -/
theorem mismatched_video_errors_at_merge_witness :
    mergeFeatures cexMismatchMM = Except.error lengthError :=
  mismatched_video_errors_at_merge cexMismatchMM cexVideoMismatch rfl
    (fun h => absurd h.1 (by decide))

/-- C9: when the three merge steps succeed and produce at least one table,
`merge_features` stores the left-join fold of exactly the present modality
tables in the fixed order video, audio/text, voice; the joined table's
columns are exactly the concatenation of the present tables' columns (no
placeholder columns for absent modalities), and an absent modality
contributes no table. -/
theorem merge_left_joins_in_order (m : Multimodal) (ov oa ovo : Option DF)
    (hv : videoTablePart m = Except.ok ov)
    (ha : audioTextTablePart m = Except.ok oa)
    (hvo : voiceTablePart m = Except.ok ovo)
    (hne : ov.toList ++ oa.toList ++ ovo.toList ≠ []) :
    mergeFeatures m = Except.ok
      { m with features := some (joinAll (ov.toList ++ oa.toList ++ ovo.toList)) } ∧
    (joinAll (ov.toList ++ oa.toList ++ ovo.toList)).cols =
      ((ov.toList ++ oa.toList ++ ovo.toList).map DF.cols).flatten ∧
    (m.video_annot = none → ov = none) ∧
    (m.audio_annot = none → oa = none) ∧
    (m.voice_features = none → ovo = none) := by
  obtain ⟨d, rest, hcons⟩ := List.exists_cons_of_ne_nil hne
  refine ⟨?_, ?_, ?_, ?_, ?_⟩
  · unfold mergeFeatures modalityTables
    rw [hv, ha, hvo]
    simp [Bind.bind, Except.bind, Pure.pure, Except.pure, hcons, joinAll]
  · rw [hcons]
    simp [joinAll, foldl_leftJoin_cols]
  · intro h
    unfold videoTablePart at hv
    rw [h] at hv
    exact (Except.ok.injEq _ _).mp hv.symm
  · intro h
    unfold audioTextTablePart truthyAudio at ha
    rw [h] at ha
    simp at ha
    exact ha.symm
  · intro h
    unfold voiceTablePart at hvo
    rw [h] at hvo
    exact (Except.ok.injEq _ _).mp hvo.symm

/-- C9 witness: video and voice present, audio/text absent — the merged
table is the left join of the two present tables and carries exactly their
columns. -/
theorem merge_left_joins_in_order_witness :
    mergeFeatures witVideoVoiceMM =
      Except.ok { witVideoVoiceMM with
        features := some (joinAll [witVideoDF, witVoiceDF]) } ∧
    (joinAll [witVideoDF, witVoiceDF]).cols =
      witVideoDF.cols ++ witVoiceDF.cols := by
  have h := merge_left_joins_in_order witVideoVoiceMM
    (some witVideoDF) none (some witVoiceDF) rfl rfl rfl (by simp)
  exact ⟨by simpa using h.1, by simpa using h.2.1⟩
